import Mathlib

/-!
# Verification of the `fast_flights` core pipeline

A shallow embedding of `fast_flights/core.py`: the markup extractor
(`parse_response`), the ranking engine (`_get_sort_key`,
`_sort_and_limit_flights`, the stop-count grouping inside
`get_top_sorted_flights`), the fetch orchestrator
(`get_flights_from_filter`) and the date-range aggregator
(`get_best_flights_across_dates`).

Modelling conventions:
* Python exceptions become `Except PyErr` values; an uncaught exception is an
  `.error`.
* CPython's `sorted` is a stable sort on precomputed keys; it is modelled by
  `List.insertionSort` over the key/value pairs, which is also stable, hence
  extensionally equal for the total preorders used here.
* `float` values are modelled as exact rationals `ℚ`; the special values
  `inf`/`nan` and non-ASCII digits are outside the model.
* Naive `datetime` values are modelled as integer seconds; `timedelta.days`
  is floor division by 86400, as in CPython.
* The selectolax document tree is abstracted to the node texts the extractor
  reads (`RowNode`, `Document`); the CSS lookups themselves are the external
  collaborator.
-/

namespace FastFlights

/-! ## Python string / number primitives -/

/-- ASCII whitespace as recognised by Python's `str.strip` and `int()`
(space, tab, newline, carriage return, vertical tab, form feed).
Non-ASCII unicode whitespace is outside the model. -/
def isPySpace (c : Char) : Bool :=
  c = ' ' || c = '\t' || c = '\n' || c = '\r' || c = '\x0b' || c = '\x0c'

/-- Strip ASCII whitespace from both ends of a character list. -/
def pyStripChars (cs : List Char) : List Char :=
  ((cs.dropWhile isPySpace).reverse.dropWhile isPySpace).reverse

/-- Python `str.strip()`. -/
def pyStrip (s : String) : String := String.mk (pyStripChars s.data)

/-- Parse a maximal run of decimal digits, allowing single underscores
between digits as CPython's number grammar does.  `digitRun acc len cs`
returns the accumulated value, the number of digits consumed, and the
remaining characters; it fails (`none`) when no digit starts the run or an
underscore is not surrounded by digits. -/
def digitRun : Nat → Nat → List Char → Option (Nat × Nat × List Char)
  | acc, len, [] => if 0 < len then some (acc, len, []) else none
  | acc, len, '_' :: rest =>
    if 0 < len then
      match rest with
      | c :: _ => if c.isDigit then digitRun acc len rest else none
      | [] => none
    else none
  | acc, len, c :: rest =>
    if c.isDigit then digitRun (acc * 10 + (c.toNat - 48)) (len + 1) rest
    else if 0 < len then some (acc, len, c :: rest) else none

/-- A complete string of digits (possibly with internal underscores). -/
def pyIntCore (cs : List Char) : Option Nat :=
  match digitRun 0 0 cs with
  | some (v, _, []) => some v
  | _ => none

/-- Python `int(s)` on ASCII input: optional surrounding whitespace, an
optional sign, then digits with optional single internal underscores.
Returns `none` where CPython raises `ValueError`. -/
def pyInt (s : String) : Option Int :=
  match pyStripChars s.data with
  | '+' :: rest => (pyIntCore rest).map (fun n => (n : Int))
  | '-' :: rest => (pyIntCore rest).map (fun n => -(n : Int))
  | cs => (pyIntCore cs).map (fun n => (n : Int))

/-- `10 ^ ex` over `ℚ` for a signed exponent. -/
def pow10 (ex : Int) : ℚ :=
  if 0 ≤ ex then ((10 : ℚ) ^ ex.toNat) else ((10 : ℚ) ^ (-ex).toNat)⁻¹

/-- The exponent of a float literal: optional sign then digits. -/
def parseExponent (cs : List Char) : Option Int :=
  match cs with
  | '+' :: rest => (pyIntCore rest).map (fun n => (n : Int))
  | '-' :: rest => (pyIntCore rest).map (fun n => -(n : Int))
  | _ => (pyIntCore cs).map (fun n => (n : Int))

/-- Apply an optional trailing exponent part to an already parsed mantissa. -/
def applyExponent (q : ℚ) : List Char → Option ℚ
  | [] => some q
  | 'e' :: rest => (parseExponent rest).map (fun ex => q * pow10 ex)
  | 'E' :: rest => (parseExponent rest).map (fun ex => q * pow10 ex)
  | _ => none

/-- The unsigned part of a float literal: optional integer digits, an
optional fraction introduced by a point, an optional exponent; at least one
digit must be present in the integer or fraction part. -/
def pyFloatMag (cs : List Char) : Option ℚ :=
  let ipart := digitRun 0 0 cs
  let ipVal := match ipart with | some (v, _, _) => v | none => 0
  let ipLen := match ipart with | some (_, l, _) => l | none => 0
  let r1 := match ipart with | some (_, _, r) => r | none => cs
  let fpart : Option (Nat × Nat × List Char) :=
    match r1 with
    | '.' :: r2 =>
      match digitRun 0 0 r2 with
      | some (fv, fl, r3) => some (fv, fl, r3)
      | none => some (0, 0, r2)
    | _ => none
  let fVal := match fpart with | some (v, _, _) => v | none => 0
  let fLen := match fpart with | some (_, l, _) => l | none => 0
  let r4 := match fpart with | some (_, _, r) => r | none => r1
  if ipLen = 0 && fLen = 0 then none
  else applyExponent ((ipVal : ℚ) + (fVal : ℚ) / (10 : ℚ) ^ fLen) r4

/-- Python `float(s)` on finite decimal literals: optional surrounding
whitespace and sign, digits with underscores, optional fraction and
exponent.  Values are exact rationals; `inf`, `nan` and non-ASCII digits
are outside the model.  Returns `none` where CPython raises `ValueError`. -/
def pyFloat (s : String) : Option ℚ :=
  match pyStripChars s.data with
  | '+' :: rest => pyFloatMag rest
  | '-' :: rest => (pyFloatMag rest).map (fun q => -q)
  | cs => pyFloatMag cs

/-- Helper for `str.split(sep)`: split on every occurrence of a single
character, keeping empty pieces, as Python does. -/
def splitOnCharAux (sep : Char) : List Char → List Char → List (List Char)
  | [], acc => [acc.reverse]
  | c :: rest, acc =>
    if c = sep then acc.reverse :: splitOnCharAux sep rest []
    else splitOnCharAux sep rest (c :: acc)

/-- Python `s.split(sep)` for a one-character separator. -/
def pySplitChar (s : String) (sep : Char) : List String :=
  (splitOnCharAux sep s.data []).map String.mk

/-- `s.split(" ", 1)[0]`: the characters before the first space. -/
def firstSpaceToken (s : String) : String :=
  String.mk (s.data.takeWhile (fun c => c ≠ ' '))

/-- Helper for `str.split()` with no arguments: the maximal runs of
non-whitespace characters. -/
def pyWordsAux : List Char → List Char → List (List Char)
  | [], acc => if acc.isEmpty then [] else [acc.reverse]
  | c :: rest, acc =>
    if isPySpace c then
      if acc.isEmpty then pyWordsAux rest [] else acc.reverse :: pyWordsAux rest []
    else pyWordsAux rest (c :: acc)

/-- Join word lists with single spaces, as `" ".join(words)`. -/
def joinWithSpace : List (List Char) → List Char
  | [] => []
  | [w] => w
  | w :: ws => w ++ ' ' :: joinWithSpace ws

/-- `" ".join(s.split())`: collapse runs of whitespace into single spaces
and drop leading/trailing whitespace. -/
def collapseWS (s : String) : String :=
  String.mk (joinWithSpace (pyWordsAux s.data []))

/-- Does `pat` occur at the head of `l`? -/
def matchesAt (pat l : List Char) : Bool := l.take pat.length == pat

/-- Fuel-driven core of `str.replace`: scan left to right, replacing every
non-overlapping occurrence of the (non-empty) pattern.  The fuel is the
length of the source, which each step strictly decreases. -/
def pyReplaceAux (pat rep : List Char) : Nat → List Char → List Char
  | _, [] => []
  | 0, l => l
  | fuel + 1, c :: rest =>
    if matchesAt pat (c :: rest) then
      rep ++ pyReplaceAux pat rep fuel ((c :: rest).drop pat.length)
    else c :: pyReplaceAux pat rep fuel rest

/-- Empty-pattern `str.replace`: the replacement is inserted before every
character and at the end, as in CPython. -/
def pyInterleave (rep : List Char) : List Char → List Char
  | [] => rep
  | c :: rest => rep ++ c :: pyInterleave rep rest

/-- Python `s.replace(pat, rep)`: all non-overlapping occurrences, left to
right. -/
def pyReplace (s pat rep : String) : String :=
  match pat.data with
  | [] => String.mk (pyInterleave rep.data s.data)
  | _ => String.mk (pyReplaceAux pat.data rep.data s.data.length s.data)

/-! ## Data model -/

instance {ε α : Type} [DecidableEq ε] [DecidableEq α] : DecidableEq (Except ε α) := fun x y =>
  match x, y with
  | .error a, .error b => decidable_of_iff (a = b) (by simp)
  | .ok a, .ok b => decidable_of_iff (a = b) (by simp)
  | .error _, .ok _ => isFalse (by simp)
  | .ok _, .error _ => isFalse (by simp)

/-- Python exceptions that the embedded code can raise. -/
inductive PyErr
  | assertionError (msg : String)
  | runtimeError (msg : String)
  | valueError (msg : String)
  | typeError (msg : String)
  deriving DecidableEq, Repr

/-- The `stops` field of a flight record: `0 if stops == "Nonstop" else
int(...)` produces a Python `int`, and the `except ValueError` fallback
produces the string `"Unknown"`; the two live in one dynamically typed
slot. -/
inductive StopsVal
  | int (n : Int)
  | unknown
  deriving DecidableEq, BEq, Repr

/-- One extracted flight offer (`Flight` in `schema.py`, which is outside
`src/`; the field list is the dictionary built in `parse_response` plus the
`date` field the date-range aggregator assigns post-hoc). -/
structure Flight where
  is_best : Bool
  name : String
  departure : String
  arrival : String
  arrival_time_ahead : String
  duration : String
  stops : StopsVal
  delay : Option String
  price : String
  date : Option String
  deriving DecidableEq, Repr

/-- One fetch/extract cycle's output (`Result` in `schema.py`). -/
structure Result where
  current_price : String
  flights : List Flight
  deriving DecidableEq, Repr

/-- The texts `parse_response` reads from one candidate row node:
each field is `none` when the corresponding CSS lookup finds nothing
(`safe(...)` then yields the blank object whose text is `""`).
`dp_ar` is the list of texts of the `span.mv1WYe div` nodes. -/
structure RowNode where
  name : Option String
  dp_ar : List String
  time_ahead : Option String
  duration : Option String
  stops : Option String
  delay : Option String
  price : Option String
  deriving DecidableEq, Repr

/-- A fetched document, abstracted to what the extractor reads: the result
sections (matching either section marker, in document order), each with its
candidate row nodes, and the page-level price node `span.gOatQ`. -/
structure Document where
  sections : List (List RowNode)
  current_price_node : Option String
  deriving DecidableEq, Repr

/-- A transport response: HTTP status, parsed document, raw markdown text. -/
structure Response where
  status_code : Int
  text : Document
  text_markdown : String
  deriving DecidableEq, Repr

/-- The fetch mode (`common`, `fallback`, `force-fallback`, `local`). -/
inductive Mode
  | common
  | fallback
  | force_fallback
  | localM
  deriving DecidableEq, Repr

/-- The ranking policy (`best`, `price`, `duration`). -/
inductive SortMethod
  | best
  | price
  | duration
  deriving DecidableEq, Repr

/-! ## Markup extractor (`parse_response`) -/

/-- The stops-formatting step of `parse_response`:
`0 if stops == "Nonstop" else int(stops.split(" ", 1)[0])`, with the
`except ValueError` fallback to `"Unknown"`. -/
def parse_stops (stops : String) : StopsVal :=
  if stops = "Nonstop" then .int 0
  else
    match pyInt (firstSpaceToken stops) with
    | some n => .int n
    | none => .unknown

/-- Build one flight dictionary from a row node, as the body of the row
loop in `parse_response` does: every missing lookup degrades to `""` (or
`"0"` for the price, `None` for the delay), the departure/arrival pair
degrades to `("", "")` when fewer than two time nodes are present. -/
def mkFlight (is_best_flight : Bool) (item : RowNode) : Flight :=
  let name := pyStrip (item.name.getD "")
  let dpar : String × String :=
    match item.dp_ar with
    | a :: b :: _ => (pyStrip a, pyStrip b)
    | _ => ("", "")
  let time_ahead := item.time_ahead.getD ""
  let duration := item.duration.getD ""
  let stops_text := item.stops.getD ""
  let delayTxt := item.delay.getD ""
  let priceTxt := item.price.getD ""
  { is_best := is_best_flight,
    name := name,
    departure := collapseWS dpar.1,
    arrival := collapseWS dpar.2,
    arrival_time_ahead := time_ahead,
    duration := duration,
    stops := parse_stops stops_text,
    delay := if delayTxt = "" then none else some delayTxt,
    price := pyReplace (if priceTxt = "" then "0" else priceTxt) "," "",
    date := none }

/-- The rows considered in section `i`: all of them for the best (first)
section, all but the last for every other section, unless
`dangerously_allow_looping_last_item` is set. -/
def sectionRows (dangerously_allow_looping_last_item : Bool) (i : Nat)
    (rows : List RowNode) : List RowNode :=
  if dangerously_allow_looping_last_item || i == 0 then rows else rows.dropLast

/-- The full row extraction of `parse_response`: enumerate the sections in
document order, flag rows of the first one `is_best`. -/
def extract_flights (doc : Document)
    (dangerously_allow_looping_last_item : Bool) : List Flight :=
  (doc.sections.enum.map (fun p =>
    (sectionRows dangerously_allow_looping_last_item p.1 p.2).map
      (mkFlight (p.1 == 0)))).flatten

/-- `parse_response`: extract all rows; if none were extracted raise
`RuntimeError("No flights found:\n" + r.text_markdown)` (the error value is
the message), otherwise return the `Result` with the page-level price
text. -/
def parse_response (r : Response)
    (dangerously_allow_looping_last_item : Bool) : Except String Result :=
  let flights := extract_flights r.text dangerously_allow_looping_last_item
  if flights = [] then .error ("No flights found:\n" ++ r.text_markdown)
  else .ok { current_price := r.text.current_price_node.getD "", flights := flights }

/-! ## Ranking engine -/

/-- `_parse_duration`: replace `" hr "` by `":"`, drop `" min"`, split on
`":"`; exactly two pieces that both parse as integers give minutes, any
failure gives `float("inf")`, modelled as `⊤`. -/
def _parse_duration (duration : String) : WithTop ℤ :=
  let pieces := pySplitChar (pyReplace (pyReplace duration " hr " ":") " min" "") ':'
  match pieces with
  | [h, m] =>
    match pyInt h, pyInt m with
    | some hv, some mv => ((hv * 60 + mv : ℤ) : WithTop ℤ)
    | _, _ => ⊤
  | _ => ⊤

/-- `float(f.price.replace("$", "").replace(",", ""))` as a partial value. -/
def price_key_val (f : Flight) : Option ℚ :=
  pyFloat (pyReplace (pyReplace f.price "$" "") "," "")

/-- The `price` policy sort key; raises `ValueError` (as `float` does) when
the stripped price text is not a float literal. -/
def _get_sort_key_price (f : Flight) : Except PyErr ℚ :=
  match price_key_val f with
  | some q => .ok q
  | none => .error (.valueError ("could not convert string to float: " ++ f.price))

/-- The `duration` policy sort key; total, unparseable durations are `⊤`. -/
def _get_sort_key_duration (f : Flight) : WithTop ℤ := _parse_duration f.duration

/-- The `best` policy sort key: the lexicographic triple
`(not is_best, price, duration)`. -/
def _get_sort_key_best (f : Flight) :
    Except PyErr (Lex (Bool × Lex (ℚ × WithTop ℤ))) :=
  match price_key_val f with
  | some q => .ok (toLex (!f.is_best, toLex (q, _parse_duration f.duration)))
  | none => .error (.valueError ("could not convert string to float: " ++ f.price))

/-- CPython's `sorted(l, key=k)` first computes every key, left to right,
propagating the first exception. -/
def build_key_pairs {K : Type} (key : Flight → Except PyErr K) :
    List Flight → Except PyErr (List (K × Flight))
  | [] => .ok []
  | f :: fs =>
    match key f with
    | .error e => .error e
    | .ok k =>
      match build_key_pairs key fs with
      | .error e => .error e
      | .ok ps => .ok ((k, f) :: ps)

/-- Comparison of decorated elements by their keys. -/
def pairLE {K : Type} [LinearOrder K] (a b : K × Flight) : Prop := a.1 ≤ b.1

instance {K : Type} [LinearOrder K] : DecidableRel (@pairLE K _) :=
  fun a b => inferInstanceAs (Decidable (a.1 ≤ b.1))

instance {K : Type} [LinearOrder K] : IsTotal (K × Flight) pairLE :=
  ⟨fun a b => le_total a.1 b.1⟩

instance {K : Type} [LinearOrder K] : IsTrans (K × Flight) pairLE :=
  ⟨fun _ _ _ h h2 => le_trans h h2⟩

/-- CPython's `sorted(l, key=k)`: stable sort of the key-decorated list.
Stable sorts agree extensionally, so the stable `insertionSort` stands in
for timsort. -/
def py_sorted_by_key {K : Type} [LinearOrder K] (key : Flight → Except PyErr K)
    (l : List Flight) : Except PyErr (List Flight) :=
  match build_key_pairs key l with
  | .error e => .error e
  | .ok ps => .ok ((ps.insertionSort pairLE).map Prod.snd)

/-- `sorted(flights, key=...)[:limit]`. -/
def py_sort_take {K : Type} [LinearOrder K] (key : Flight → Except PyErr K)
    (l : List Flight) (limit : Nat) : Except PyErr (List Flight) :=
  match py_sorted_by_key key l with
  | .error e => .error e
  | .ok s => .ok (s.take limit)

/-- `_sort_and_limit_flights(flights, sort_method, limit=5)`: sort by the
policy's key and keep the first `limit` results.  All call sites in the
source use the default `limit = 5`. -/
def _sort_and_limit_flights (flights : List Flight) (sort_method : SortMethod)
    (limit : Nat) : Except PyErr (List Flight) :=
  match sort_method with
  | .best => py_sort_take _get_sort_key_best flights limit
  | .price => py_sort_take _get_sort_key_price flights limit
  | .duration => py_sort_take (fun f => .ok (_get_sort_key_duration f)) flights limit

/-! ## Stop-count grouping (`get_top_sorted_flights`, lines 208-219) -/

/-- Is this stops value a Python `int` (as opposed to the `"Unknown"`
string)? -/
def stops_is_int : StopsVal → Bool
  | .int _ => true
  | .unknown => false

/-- Ordering of two stops values of the same Python type.  The cross-type
case is arbitrary (`true`): CPython raises `TypeError` there, which the
callers below detect separately before sorting. -/
def stops_le (a b : StopsVal) : Bool :=
  match a, b with
  | .int m, .int n => decide (m ≤ n)
  | _, _ => true

/-- Does the key list hold both an `int` and the `"Unknown"` string?  A
comparison sort of such a list must compare some `int` key with some `str`
key, so CPython's `sorted` raises `TypeError`. -/
def mixed_stops (keys : List StopsVal) : Bool :=
  (keys.any fun s => stops_is_int s) && (keys.any fun s => !stops_is_int s)

/-- `sorted(result.flights, key=attrgetter("stops"))`: `TypeError` when the
stops keys mix `int`s with the `"Unknown"` sentinel, otherwise the stable
sort by stops. -/
def py_sort_flights_by_stops (l : List Flight) : Except PyErr (List Flight) :=
  if mixed_stops (l.map Flight.stops) then
    .error (.typeError "not supported between instances of str and int")
  else .ok (l.insertionSort (fun a b => stops_le a.stops b.stops = true))

/-- `sorted(flights_by_stops.keys())`, with the same `TypeError`
behaviour. -/
def py_sort_stops_keys (keys : List StopsVal) : Except PyErr (List StopsVal) :=
  if mixed_stops keys then
    .error (.typeError "not supported between instances of str and int")
  else .ok (keys.insertionSort (fun a b => stops_le a b = true))

/-- The `itertools.groupby` key of one (non-empty, key-homogeneous) group. -/
def group_stops_key (g : List Flight) : StopsVal :=
  match g with
  | [] => .unknown
  | f :: _ => f.stops

/-- The dict-filling loop: for each `groupby` group, its key paired with
`_sort_and_limit_flights(list(flights), sort_method)`. -/
def groups_rank : List (List Flight) → SortMethod →
    Except PyErr (List (StopsVal × List Flight))
  | [], _ => .ok []
  | g :: gs, m =>
    match _sort_and_limit_flights g m 5 with
    | .error e => .error e
    | .ok top =>
      match groups_rank gs m with
      | .error e => .error e
      | .ok rest => .ok ((group_stops_key g, top) :: rest)

/-- `flights_by_stops[stops]`: dictionary lookup (keys are distinct, first
match). -/
def lookup_stops (l : List (StopsVal × List Flight)) (k : StopsVal) : List Flight :=
  match l with
  | [] => []
  | p :: rest => if p.1 == k then p.2 else lookup_stops rest k

/-- The pure ranking stage of `get_top_sorted_flights`: sort the records by
`stops`, group consecutive equal stops (`groupby`), rank-and-truncate each
group, then emit the groups in ascending key order
(`for stops in sorted(flights_by_stops.keys())`). -/
def get_top_sorted_flights_ranking (flights : List Flight)
    (sort_method : SortMethod) : Except PyErr (List Flight) :=
  match py_sort_flights_by_stops flights with
  | .error e => .error e
  | .ok sortedFl =>
    match groups_rank (sortedFl.splitBy (fun a b => a.stops == b.stops)) sort_method with
    | .error e => .error e
    | .ok flights_by_stops =>
      match py_sort_stops_keys (flights_by_stops.map Prod.fst) with
      | .error e => .error e
      | .ok sorted_keys =>
        .ok ((sorted_keys.map (lookup_stops flights_by_stops)).flatten)

/-! ## Fetch orchestrator -/

/-- The transports for one fixed search filter, as functions of the
`curr` request parameter: the direct HTTP client (`fetch`), the remote
fallback (`fallback_playwright_fetch`) and the local driver
(`local_playwright_fetch`).  The latter two are external collaborators
assumed to succeed at the transport layer. -/
structure TransportEnv where
  direct : String → Response
  fallbackF : String → Response
  localF : String → Response

/-- `fetch(params)`: run the direct client and `assert` a 200 status,
raising `AssertionError` otherwise. -/
def fetch (env : TransportEnv) (curr : String) : Except PyErr Response :=
  let res := env.direct curr
  if res.status_code = 200 then .ok res
  else .error (.assertionError (toString res.status_code ++ " Result: " ++ res.text_markdown))

/-- Recursion measure for `get_flights_from_filter`: only `fallback` may
recurse (into `force-fallback`). -/
def Mode.rank : Mode → Nat
  | .fallback => 1
  | _ => 0

/-- The document-producing stage of `get_flights_from_filter`: direct
transport for `common`/`fallback` (the latter catching `AssertionError` and
re-running through the remote fallback transport), the local transport for
`local`, the remote fallback transport for `force-fallback`. -/
def gfff_fetch_stage (env : TransportEnv) (curr : String) : Mode → Except PyErr Response
  | .common => fetch env curr
  | .fallback =>
    match fetch env curr with
    | .ok r => .ok r
    | .error _ => .ok (env.fallbackF curr)
  | .localM => .ok (env.localF curr)
  | .force_fallback => .ok (env.fallbackF curr)

/-- `get_flights_from_filter(filter, currency, mode=mode)`: produce a
document, parse it; a `RuntimeError` from parsing escalates once to
`force-fallback` when the mode is `fallback` (note the recursive call
passes no currency, so the escalated fetch uses the default `""`), and
propagates otherwise. -/
def get_flights_from_filter (env : TransportEnv) (currency : String) (mode : Mode) :
    Except PyErr Result :=
  match gfff_fetch_stage env currency mode with
  | .error e => .error e
  | .ok res =>
    match parse_response res false with
    | .ok result => .ok result
    | .error msg =>
      if h : mode = Mode.fallback then
        get_flights_from_filter env "" Mode.force_fallback
      else .error (.runtimeError msg)
termination_by mode.rank
decreasing_by subst h; decide

/-- `get_flights(...)`: build the filter (the opaque query builder, baked
into `env`) and run `get_flights_from_filter` with the default currency. -/
def get_flights (env : TransportEnv) (fetch_mode : Mode) : Except PyErr Result :=
  get_flights_from_filter env "" fetch_mode

/-- `get_top_sorted_flights(...)`: fetch all flights, then run the grouped
ranking stage over them, keeping the page's price label. -/
def get_top_sorted_flights (env : TransportEnv) (fetch_mode : Mode)
    (sort_method : SortMethod) : Except PyErr Result :=
  match get_flights env fetch_mode with
  | .error e => .error e
  | .ok result =>
    match get_top_sorted_flights_ranking result.flights sort_method with
    | .error e => .error e
    | .ok top_flights => .ok { current_price := result.current_price, flights := top_flights }

/-! ## Date-range aggregator -/

/-- The validation prologue of `get_best_flights_across_dates`:
`date_diff = (end_date - start_date).days` (floor division of the elapsed
seconds, as for `datetime.timedelta`), rejecting `date_diff < 0` and
`date_diff > 5` before any fetching. -/
def validate_date_range (start_date end_date : Int) : Option PyErr :=
  let date_diff := (end_date - start_date).fdiv 86400
  if date_diff < 0 then some (.valueError "end_date must be after start_date")
  else if 5 < date_diff then some (.valueError "Maximum date range is 5 days")
  else none

/-- The price-level reconciliation of `get_best_flights_across_dates`:
`"low"` if any day reported it, else `"typical"` if any day reported it,
else `"high"`. -/
def reconcile_price_levels (price_levels : List String) : String :=
  if "low" ∈ price_levels then "low"
  else if "typical" ∈ price_levels then "typical"
  else "high"

/-- Gregorian calendar date for a day count since 1970-01-01
(the standard era-based conversion), for `strftime("%Y-%m-%d")`. -/
def civilFromDays (z0 : Int) : Int × Int × Int :=
  let z := z0 + 719468
  let era := z.fdiv 146097
  let doe := z - era * 146097
  let yoe := (doe - doe.fdiv 1460 + doe.fdiv 36524 - doe.fdiv 146096).fdiv 365
  let y := yoe + era * 400
  let doy := doe - (365 * yoe + yoe.fdiv 4 - yoe.fdiv 100)
  let mp := (5 * doy + 2).fdiv 153
  let d := doy - (153 * mp + 2).fdiv 5 + 1
  let m := mp + (if mp < 10 then 3 else -9)
  (y + (if m ≤ 2 then 1 else 0), m, d)

/-- Zero-pad a one-digit number. -/
def pad2 (n : Int) : String :=
  if n < 10 then "0" ++ toString n else toString n

/-- `current_date.strftime("%Y-%m-%d")` for a naive datetime given in
seconds since 1970-01-01. -/
def strftime_YMD (t : Int) : String :=
  let c := civilFromDays (t.fdiv 86400)
  toString c.1 ++ "-" ++ pad2 c.2.1 ++ "-" ++ pad2 c.2.2

/-- The per-day loop of `get_best_flights_across_dates`: while
`current_date <= end_date`, fetch the day's top flights, record its price
label, stamp the day onto each record's `date` field, and step one day.
The fuel is the exact number of loop iterations for the validated range;
the fuel-exhausted branch is unreachable for the fuel the caller passes. -/
def gbfad_loop (fetch_day : Int → Except PyErr Result) (end_date : Int) :
    Int → Nat → List Flight → List String → Except PyErr (List Flight × List String)
  | current_date, fuel, all_flights, price_levels =>
    if end_date < current_date then .ok (all_flights, price_levels)
    else
      match fuel with
      | 0 => .ok (all_flights, price_levels)
      | fuel' + 1 =>
        match fetch_day current_date with
        | .error e => .error e
        | .ok result =>
          gbfad_loop fetch_day end_date (current_date + 86400) fuel'
            (all_flights ++ result.flights.map
              (fun f => { f with date := some (strftime_YMD current_date) }))
            (price_levels ++ [result.current_price])

/-- `get_best_flights_across_dates`: validate the range, fetch each day,
then run the ungrouped top-5 truncation over the accumulated records and
reconcile the accumulated price labels.  `fetch_day` abstracts the per-day
`get_top_sorted_flights` call (one fresh single-date, single-route query
per day, whose outcome depends on the network transports). -/
def get_best_flights_across_dates (fetch_day : Int → Except PyErr Result)
    (start_date end_date : Int) (sort_method : SortMethod) : Except PyErr Result :=
  match validate_date_range start_date end_date with
  | some e => .error e
  | none =>
    match gbfad_loop fetch_day end_date start_date
        (((end_date - start_date).fdiv 86400).toNat + 1) [] [] with
    | .error e => .error e
    | .ok acc =>
      match _sort_and_limit_flights acc.1 sort_method 5 with
      | .error e => .error e
      | .ok best_flights =>
        .ok { current_price := reconcile_price_levels acc.2, flights := best_flights }

/-! ## Concrete fixtures used by witnesses and counterexamples -/

/-- A row node none of whose lookups find anything. -/
def blankRow : RowNode :=
  { name := none, dp_ar := [], time_ahead := none, duration := none,
    stops := none, delay := none, price := none }

/-- A nonstop flight record. -/
def nonstopFlight : Flight :=
  { is_best := true, name := "AA", departure := "8:30 AM", arrival := "4:40 PM",
    arrival_time_ahead := "", duration := "2 hr 0 min", stops := .int 0,
    delay := none, price := "100", date := none }

/-- A flight record whose stop count failed to parse. -/
def unknownStopsFlight : Flight :=
  { is_best := false, name := "BB", departure := "", arrival := "",
    arrival_time_ahead := "", duration := "3 hr 0 min", stops := .unknown,
    delay := none, price := "90", date := none }

/-- A flight whose price text carries a non-dollar currency symbol. -/
def euroFlight : Flight :=
  { is_best := false, name := "LH", departure := "", arrival := "",
    arrival_time_ahead := "", duration := "5 hr 10 min", stops := .int 0,
    delay := none, price := "€450", date := none }

/-- A flight whose duration text is unparseable. -/
def badDurationFlight : Flight :=
  { is_best := false, name := "DL", departure := "", arrival := "",
    arrival_time_ahead := "", duration := "garbage text", stops := .int 0,
    delay := none, price := "450", date := none }

/-- A long-duration flight. -/
def slowFlight : Flight :=
  { is_best := false, name := "S", departure := "", arrival := "",
    arrival_time_ahead := "", duration := "5 hr 0 min", stops := .int 1,
    delay := none, price := "200", date := none }

/-- A short-duration flight. -/
def quickFlight : Flight :=
  { is_best := false, name := "Q", departure := "", arrival := "",
    arrival_time_ahead := "", duration := "3 hr 0 min", stops := .int 1,
    delay := none, price := "300", date := none }

/-- A successful response whose document holds no flight rows. -/
def emptyRespMd (md : String) : Response :=
  { status_code := 200,
    text := { sections := [], current_price_node := none },
    text_markdown := md }

/-- Transports that always return empty-flight documents. -/
def env0 : TransportEnv :=
  { direct := fun _ => emptyRespMd "direct",
    fallbackF := fun _ => emptyRespMd "fb",
    localF := fun _ => emptyRespMd "loc" }

/-- A per-day fetch oracle reporting a "high" price level and no flights. -/
def constHighOracle : Int → Except PyErr Result :=
  fun _ => .ok { current_price := "high", flights := [] }

/-! ## C4: price-label reconciliation -/

/-- C4: for every non-empty list of per-day price-level labels, the overall
label is "low" if any day's label is "low", else "typical" if any day's
label is "typical", else "high". -/
theorem C4_price_label_reconciliation (levels : List String) (hne : levels ≠ []) :
    ("low" ∈ levels → reconcile_price_levels levels = "low")
    ∧ ("low" ∉ levels → "typical" ∈ levels → reconcile_price_levels levels = "typical")
    ∧ ("low" ∉ levels → "typical" ∉ levels → reconcile_price_levels levels = "high") := by
  unfold reconcile_price_levels
  exact ⟨fun hl => by simp [hl], fun hl ht => by simp [hl, ht],
    fun hl ht => by simp [hl, ht]⟩

/-- Witness for C4 at the spec's three calibration lists. -/
theorem C4_price_label_reconciliation_witness :
    (["typical", "low", "high"] : List String) ≠ []
    ∧ reconcile_price_levels ["typical", "low", "high"] = "low"
    ∧ reconcile_price_levels ["typical", "high"] = "typical"
    ∧ reconcile_price_levels ["high"] = "high" :=
  ⟨by decide,
   (C4_price_label_reconciliation ["typical", "low", "high"] (by decide)).1 (by decide),
   (C4_price_label_reconciliation ["typical", "high"] (by decide)).2.1 (by decide) (by decide),
   (C4_price_label_reconciliation ["high"] (by decide)).2.2 (by decide) (by decide)⟩

/-! ## C5: `stops == 0` iff the source text denotes "nonstop" -/

/-- Modelled from the spec: a stop-count source text "denotes nonstop" when
it is the literal "Nonstop" or its leading integer token (the text before
the first space, parsed as a Python `int`) has the value zero — zero stops
is a nonstop itinerary. -/
def denotes_nonstop (s : String) : Prop :=
  s = "Nonstop" ∨ pyInt (firstSpaceToken s) = some 0

/-- C5: for every extracted row, the stops field equals 0 iff the row's
stop-count source text denotes "nonstop". -/
theorem C5_stops_zero_iff_nonstop (s : String) :
    parse_stops s = .int 0 ↔ denotes_nonstop s := by
  unfold parse_stops denotes_nonstop
  by_cases h : s = "Nonstop"
  · simp [h]
  · cases hp : pyInt (firstSpaceToken s) with
    | none => simp [h, hp]
    | some n => simp [h, hp]

/-! ## C6: zero extracted rows is a hard "no flights found" failure -/

/-- C6: when zero rows are extracted across all sections, extraction fails
with the "no flights found" signal carrying the raw document text, and a
successful extraction never carries an empty flights list. -/
theorem C6_no_flights_failure (r : Response) (allow : Bool) :
    (extract_flights r.text allow = [] →
      parse_response r allow = .error ("No flights found:\n" ++ r.text_markdown))
    ∧ (∀ res, parse_response r allow = .ok res → res.flights ≠ []) := by
  constructor
  · intro h
    simp [parse_response, h]
  · intro res h
    by_cases he : extract_flights r.text allow = []
    · simp [parse_response, he] at h
    · simp [parse_response, he] at h
      rw [← h]
      simpa using he

/-- Witness for C6 on a sectionless document. -/
theorem C6_no_flights_failure_witness :
    extract_flights (emptyRespMd "md").text false = []
    ∧ parse_response (emptyRespMd "md") false
      = .error ("No flights found:\n" ++ (emptyRespMd "md").text_markdown) :=
  ⟨by decide, (C6_no_flights_failure (emptyRespMd "md") false).1 (by decide)⟩

/-! ## C7: best-section flagging and last-row dropping -/

/-- C7: for a document with sections `s0` (best) and `s1`, and the looping
override not set, the extracted list is the rows of `s0` flagged
`is_best = true` followed by all but the last row of `s1` (its first
`length - 1` rows) flagged `is_best = false`. -/
theorem C7_section_rows (s0 s1 : List RowNode) (cp : Option String)
    (sc : Int) (md : String)
    (hne : s0.map (mkFlight true) ++ s1.dropLast.map (mkFlight false) ≠ []) :
    extract_flights { sections := [s0, s1], current_price_node := cp } false
      = s0.map (mkFlight true) ++ s1.dropLast.map (mkFlight false)
    ∧ s1.dropLast = s1.take (s1.length - 1)
    ∧ parse_response
        { status_code := sc,
          text := { sections := [s0, s1], current_price_node := cp },
          text_markdown := md } false
      = .ok { current_price := cp.getD "",
              flights := s0.map (mkFlight true) ++ s1.dropLast.map (mkFlight false) } := by
  have hex : extract_flights { sections := [s0, s1], current_price_node := cp } false
      = s0.map (mkFlight true) ++ s1.dropLast.map (mkFlight false) := by
    show s0.map (mkFlight true) ++ (s1.dropLast.map (mkFlight false) ++ []) = _
    simp
  refine ⟨hex, s1.dropLast_eq_take, ?_⟩
  simp only [parse_response, hex]
  rw [if_neg hne]

/-- Witness for C7: one best-section row, two rows in the next section. -/
theorem C7_section_rows_witness :
    extract_flights { sections := [[blankRow], [blankRow, blankRow]],
                      current_price_node := none } false
      = [blankRow].map (mkFlight true) ++ [blankRow, blankRow].dropLast.map (mkFlight false)
    ∧ [blankRow, blankRow].dropLast
      = [blankRow, blankRow].take ([blankRow, blankRow].length - 1)
    ∧ parse_response
        { status_code := 200,
          text := { sections := [[blankRow], [blankRow, blankRow]],
                    current_price_node := none },
          text_markdown := "md" } false
      = .ok { current_price := (none : Option String).getD "",
              flights := [blankRow].map (mkFlight true)
                ++ [blankRow, blankRow].dropLast.map (mkFlight false) } :=
  C7_section_rows [blankRow] [blankRow, blankRow] none 200 "md" (by decide)

/-! ## C8: stop-count parsing is total (corrected: the token is
space-separated, not whitespace-separated) -/

/-- Modelled from the spec: the "first whitespace-separated token" of a
text. -/
def first_ws_token (s : String) : String :=
  String.mk ((s.data.dropWhile isPySpace).takeWhile (fun c => !isPySpace c))

/-- Counterexample to C8 as stated: the first whitespace-separated token of
`"1\tstop"` parses as the integer 1, but the code splits on a literal
space, hands `int()` the whole text `"1\tstop"`, and falls back to the
"unknown" sentinel. -/
theorem C8_counterexample :
    parse_stops "1\tstop" = .unknown
    ∧ pyInt (first_ws_token "1\tstop") = some 1
    ∧ parse_stops "1\tstop" ≠ .int 1 :=
  ⟨by decide, by decide, by decide⟩

/-- C8 (amended): parsing is total and never raises: "Nonstop" yields 0,
any other text whose prefix before the first space character parses as a
Python integer yields that integer, and every other text yields the
"unknown" sentinel. -/
theorem C8_parse_stops_total (s : String) :
    (s = "Nonstop" → parse_stops s = .int 0)
    ∧ (s ≠ "Nonstop" → ∀ n : Int, pyInt (firstSpaceToken s) = some n →
        parse_stops s = .int n)
    ∧ (s ≠ "Nonstop" → pyInt (firstSpaceToken s) = none →
        parse_stops s = .unknown) :=
  ⟨fun h => by simp [parse_stops, h],
   fun h n hn => by simp [parse_stops, h, hn],
   fun h hn => by simp [parse_stops, h, hn]⟩

/-- Witness for C8 on the spec's example `"1 stop"` and on garbage text. -/
theorem C8_parse_stops_total_witness :
    parse_stops "Nonstop" = .int 0
    ∧ parse_stops "1 stop" = .int 1
    ∧ parse_stops "garbage text" = .unknown :=
  ⟨(C8_parse_stops_total "Nonstop").1 rfl,
   (C8_parse_stops_total "1 stop").2.1 (by decide) 1 (by decide),
   (C8_parse_stops_total "garbage text").2.2 (by decide) (by decide)⟩

/-! ## C10: the price sort keys are not total -/

/-- C10: ranking a record whose price text carries a non-dollar currency
symbol (for example `"€450"`) raises under the `price` and `best` policies,
while an unparseable duration is tolerated (sorted as worst-case) and an
unparseable stop count degrades to the sentinel. -/
theorem C10_price_key_not_total :
    _sort_and_limit_flights [euroFlight] .price 5
      = .error (.valueError ("could not convert string to float: €450"))
    ∧ _sort_and_limit_flights [euroFlight] .best 5
      = .error (.valueError ("could not convert string to float: €450"))
    ∧ _sort_and_limit_flights [badDurationFlight] .duration 5 = .ok [badDurationFlight]
    ∧ _get_sort_key_duration badDurationFlight = ⊤
    ∧ parse_stops "garbage text" = .unknown :=
  ⟨by decide, by decide, by decide, by decide, by decide⟩

/-! ## C1: the grouped ranking crashes on mixed stops keys -/

/-- C1 (the code at the failing input): grouping a record list that mixes
an integer stop count with the "unknown" sentinel raises `TypeError` in
`sorted(result.flights, key=attrgetter("stops"))` instead of ordering the
sentinel after the integers. -/
theorem C1_mixed_stops_grouping_raises :
    get_top_sorted_flights_ranking [nonstopFlight, unknownStopsFlight] .best
      = .error (.typeError "not supported between instances of str and int")
    ∧ py_sort_flights_by_stops [nonstopFlight, unknownStopsFlight]
      = .error (.typeError "not supported between instances of str and int") :=
  ⟨by decide, by decide⟩

/-! ## C3: date-range validation (corrected: the bound is on elapsed whole
days, not on the exact elapsed time) -/

/-- Counterexample to C3 as stated: `end_date = start_date + 5 days + 1
hour` is more than 5 days after `start_date`, yet
`(end_date - start_date).days = 5` passes validation and the aggregator
runs to completion. -/
theorem C3_counterexample :
    (0 : Int) + 5 * 86400 < 5 * 86400 + 3600
    ∧ get_best_flights_across_dates constHighOracle 0 (5 * 86400 + 3600) .price
      = .ok { current_price := "high", flights := [] } :=
  ⟨by decide, by decide⟩

/-- C3 (amended): with `date_diff` the floor of the elapsed days,
validation fails (independently of every fetch oracle, hence before any
fetch) exactly when `date_diff < 0` — end before start — or
`date_diff > 5` — end at least 6 whole days after start; otherwise the
range is accepted.  In particular `end = start + 5 days` is accepted and
`end = start + 6 days` is rejected. -/
theorem C3_date_range_validation (start_date end_date : Int) :
    ((end_date - start_date).fdiv 86400 < 0 →
      ∀ (f : Int → Except PyErr Result) (m : SortMethod),
        get_best_flights_across_dates f start_date end_date m
          = .error (.valueError "end_date must be after start_date"))
    ∧ (5 < (end_date - start_date).fdiv 86400 →
      ∀ (f : Int → Except PyErr Result) (m : SortMethod),
        get_best_flights_across_dates f start_date end_date m
          = .error (.valueError "Maximum date range is 5 days"))
    ∧ (0 ≤ (end_date - start_date).fdiv 86400 →
        (end_date - start_date).fdiv 86400 ≤ 5 →
        validate_date_range start_date end_date = none) := by
  refine ⟨fun h f m => ?_, fun h f m => ?_, fun h1 h2 => ?_⟩
  · simp [get_best_flights_across_dates, validate_date_range, h]
  · have h' : ¬ (end_date - start_date).fdiv 86400 < 0 := by omega
    simp [get_best_flights_across_dates, validate_date_range, h, h']
  · have h1' : ¬ (end_date - start_date).fdiv 86400 < 0 := by omega
    have h2' : ¬ 5 < (end_date - start_date).fdiv 86400 := by omega
    simp [validate_date_range, h1', h2']

/-- Witness for C3 at whole-day offsets: one day backwards is rejected,
six days forward is rejected, five days forward is accepted. -/
theorem C3_date_range_validation_witness :
    get_best_flights_across_dates constHighOracle 0 (-86400) .price
      = .error (.valueError "end_date must be after start_date")
    ∧ get_best_flights_across_dates constHighOracle 0 (6 * 86400) .price
      = .error (.valueError "Maximum date range is 5 days")
    ∧ validate_date_range 0 (5 * 86400) = none :=
  ⟨(C3_date_range_validation 0 (-86400)).1 (by decide) constHighOracle .price,
   (C3_date_range_validation 0 (6 * 86400)).2.1 (by decide) constHighOracle .price,
   (C3_date_range_validation 0 (5 * 86400)).2.2 (by decide) (by decide)⟩

/-! ## C2: single fallback escalation -/

/-- C2: under `fallback` mode, when the document produced by the fallback
path parses to a "no flights found" `RuntimeError`, the orchestrator
returns exactly the outcome of the one escalated `force-fallback` call
(made with the default currency, as in the source); the `force-fallback`
path itself is the fallback transport plus extraction with errors
propagated — it performs no escalation — and its failure surfaces to the
original caller. -/
theorem C2_fallback_single_escalation (env : TransportEnv) (currency : String)
    (res : Response) (msg : String)
    (hres : gfff_fetch_stage env currency .fallback = .ok res)
    (hparse : parse_response res false = .error msg) :
    get_flights_from_filter env currency .fallback
      = get_flights_from_filter env "" .force_fallback
    ∧ (∀ (e : TransportEnv) (c : String),
        get_flights_from_filter e c .force_fallback
          = match parse_response (e.fallbackF c) false with
            | .ok result => .ok result
            | .error m => .error (.runtimeError m))
    ∧ (∀ msg2, parse_response (env.fallbackF "") false = .error msg2 →
        get_flights_from_filter env currency .fallback
          = .error (.runtimeError msg2)) := by
  have h2 : ∀ (e : TransportEnv) (c : String),
      get_flights_from_filter e c .force_fallback
        = match parse_response (e.fallbackF c) false with
          | .ok result => .ok result
          | .error m => .error (.runtimeError m) := by
    intro e c
    rw [get_flights_from_filter]
    cases hp : parse_response (e.fallbackF c) false with
    | ok result => simp [gfff_fetch_stage, hp]
    | error m => simp [gfff_fetch_stage, hp]
  have h1 : get_flights_from_filter env currency .fallback
      = get_flights_from_filter env "" .force_fallback := by
    rw [get_flights_from_filter, hres]
    simp [hparse]
  exact ⟨h1, h2, fun msg2 hp2 => by rw [h1, h2 env "", hp2]⟩

/-- Witness for C2: transports that always return empty-flight documents,
so the direct document parse fails, the escalation happens, and the
escalated path's own failure surfaces. -/
theorem C2_fallback_single_escalation_witness :
    get_flights_from_filter env0 "c" .fallback
      = .error (.runtimeError ("No flights found:\nfb")) :=
  (C2_fallback_single_escalation env0 "c" (emptyRespMd "direct")
      ("No flights found:\ndirect") rfl (by decide)).2.2
    ("No flights found:\nfb") (by decide)

/-! ## C9: ranking idempotence -/

/-- `build_key_pairs` succeeds exactly on pair lists that project to the
input and whose keys recompute. -/
theorem build_key_pairs_spec {K : Type} (key : Flight → Except PyErr K) :
    ∀ (l : List Flight) (ps : List (K × Flight)),
      build_key_pairs key l = .ok ps →
      ps.map Prod.snd = l ∧ ∀ p ∈ ps, key p.2 = .ok p.1 := by
  intro l
  induction l with
  | nil =>
    intro ps h
    simp only [build_key_pairs, Except.ok.injEq] at h
    subst h
    simp
  | cons f fs ih =>
    intro ps h
    simp only [build_key_pairs] at h
    cases hk : key f with
    | error e => rw [hk] at h; simp at h
    | ok k =>
      rw [hk] at h
      cases hr : build_key_pairs key fs with
      | error e => rw [hr] at h; simp at h
      | ok ps' =>
        rw [hr] at h
        simp only [Except.ok.injEq] at h
        subst h
        obtain ⟨hmap, hall⟩ := ih ps' hr
        refine ⟨by simp [hmap], ?_⟩
        intro p hp
        rcases List.mem_cons.mp hp with rfl | hp2
        · exact hk
        · exact hall p hp2

/-- Key computation is deterministic, so decorating the projection of a
good pair list rebuilds it. -/
theorem build_key_pairs_rebuild {K : Type} (key : Flight → Except PyErr K) :
    ∀ (q : List (K × Flight)), (∀ p ∈ q, key p.2 = .ok p.1) →
      build_key_pairs key (q.map Prod.snd) = .ok q := by
  intro q
  induction q with
  | nil => intro _; simp [build_key_pairs]
  | cons p q' ih =>
    intro hall
    have hp : key p.2 = .ok p.1 := hall p (by simp)
    have hr := ih (fun x hx => hall x (by simp [hx]))
    simp [build_key_pairs, hp, hr]

/-- Sort-and-truncate over any key is idempotent: the output is sorted, its
keys recompute, and it is no longer than the cut. -/
theorem py_sort_take_idem {K : Type} [LinearOrder K]
    (key : Flight → Except PyErr K) (n : Nat) (l out : List Flight)
    (h : py_sort_take key l n = .ok out) :
    py_sort_take key out n = .ok out := by
  unfold py_sort_take py_sorted_by_key at h ⊢
  cases hb : build_key_pairs key l with
  | error e => rw [hb] at h; simp at h
  | ok ps =>
    rw [hb] at h
    simp only [Except.ok.injEq] at h
    obtain ⟨hmapl, hall⟩ := build_key_pairs_spec key l ps hb
    have hsorted : (ps.insertionSort pairLE).Pairwise pairLE :=
      List.sorted_insertionSort pairLE ps
    have hqsorted : ((ps.insertionSort pairLE).take n).Pairwise pairLE :=
      List.Pairwise.sublist (List.take_sublist n _) hsorted
    have hqkeys : ∀ p ∈ (ps.insertionSort pairLE).take n, key p.2 = .ok p.1 := by
      intro p hp
      exact hall p ((List.mem_insertionSort pairLE).mp (List.take_subset n _ hp))
    have hout : out = ((ps.insertionSort pairLE).take n).map Prod.snd := by
      rw [← h, List.map_take]
    have hrebuild :
        build_key_pairs key out = .ok ((ps.insertionSort pairLE).take n) := by
      rw [hout]
      exact build_key_pairs_rebuild key _ hqkeys
    rw [hrebuild]
    show Except.ok (List.take n (List.map Prod.snd
      ((List.take n (ps.insertionSort pairLE)).insertionSort pairLE))) = Except.ok out
    have hlen : out.length ≤ n := by
      rw [hout]
      simp only [List.length_map, List.length_take]
      omega
    rw [List.Sorted.insertionSort_eq hqsorted, ← hout, List.take_of_length_le hlen]

/-- C9: re-running `_sort_and_limit_flights` on its own output returns the
identical sequence, for every record list and every ranking policy. -/
theorem C9_ranking_idempotent (flights : List Flight) (sort_method : SortMethod)
    (out : List Flight)
    (h : _sort_and_limit_flights flights sort_method 5 = .ok out) :
    _sort_and_limit_flights out sort_method 5 = .ok out := by
  cases sort_method with
  | best => exact py_sort_take_idem _ 5 flights out h
  | price => exact py_sort_take_idem _ 5 flights out h
  | duration => exact py_sort_take_idem _ 5 flights out h

/-- Witness for C9 under the `duration` policy on two concrete flights. -/
theorem C9_ranking_idempotent_witness :
    _sort_and_limit_flights [slowFlight, quickFlight] .duration 5
      = .ok [quickFlight, slowFlight]
    ∧ _sort_and_limit_flights [quickFlight, slowFlight] .duration 5
      = .ok [quickFlight, slowFlight] :=
  ⟨by decide,
   C9_ranking_idempotent [slowFlight, quickFlight] .duration
     [quickFlight, slowFlight] (by decide)⟩

end FastFlights
